import Mathlib

/-!
Shallow embedding of the `DockerBackend` construct from
`src/lib/docker-backend.ts` of the cna-aws-cdk-patterns repository.

The construct is a pure configuration-to-resource-graph compiler: given a
`DockerBackendProps` record it declares (in a fixed order) a VPC, an ECS
cluster, an application load balancer with its security group, an HTTP
redirect listener, an HTTPS listener bound to a certificate (newly issued or
referenced by ARN), a Fargate task definition with one container, a Fargate
service with its own security group, an autoscaling policy and a target
group.  When neither a (truthy) domainName together with a hostedZone nor a
(truthy) certificateArn is supplied, the constructor throws a string after
the VPC, cluster, load balancer and redirect listener have already been
declared.

The embedding models each declared resource as a record of the properties
the source passes to the corresponding CDK constructor, models JavaScript
truthiness of the optional inputs explicitly (undefined and the empty string
are falsy for strings, undefined and 0 are falsy for numbers), and records
the list of resources declared before a failure so that claims about
fail-before-declare behaviour can be settled.
-/

namespace CnaCdk

/-- IAM policy statement effect, from aws-iam. Only ALLOW is used by the source. -/
inductive Effect
  | ALLOW
  | DENY
  deriving DecidableEq, Repr

/-- IAM policy statement as the source constructs it: an effect, a resource
list and an action list. -/
structure PolicyStatement where
  effect : Effect
  resources : List String
  actions : List String
  deriving DecidableEq, Repr

/-- Application layer protocol of a listener or target group, from
aws-elasticloadbalancingv2. -/
inductive ApplicationProtocol
  | HTTP
  | HTTPS
  deriving DecidableEq, Repr

/-- SSL policy for an HTTPS listener. The source only ever uses RECOMMENDED. -/
inductive SslPolicy
  | RECOMMENDED
  deriving DecidableEq, Repr

/-- Route 53 record type. The source only ever creates A records. -/
inductive RecordType
  | A
  deriving DecidableEq, Repr

/-- A Route 53 hosted zone handle, identified by its zone name. -/
structure HostedZone where
  zoneName : String
  deriving DecidableEq, Repr

/-- A container image reference (ContainerImage.fromRegistry in the source). -/
structure ContainerImage where
  registryRef : String
  deriving DecidableEq, Repr

/-- Source of an ingress rule. The source only ever uses Peer.anyIpv4 (for
the load balancer security group) and the load balancer security group
itself (for the Fargate service security group, passed as
loadBalancer.connections.securityGroups[0]). -/
inductive Peer
  | anyIpv4
  | albSecurityGroup
  deriving DecidableEq, Repr

/-- One ingress allowance of a security group: a traffic source and a TCP
port (the source always uses Port.tcp). -/
structure IngressRule where
  source : Peer
  tcpPort : Nat
  deriving DecidableEq, Repr

/-- A security group as the source declares it: the outbound policy plus the
list of ingress rules added with addIngressRule, in order. -/
structure SecurityGroup where
  allowAllOutbound : Bool
  ingressRules : List IngressRule
  deriving DecidableEq, Repr

/-- A certificate bound to an HTTPS listener: either a new Certificate with
DNS validation against a hosted zone, or an existing certificate imported by
ARN with Certificate.fromCertificateArn. -/
inductive CertificateRef
  | newCert (domainName : String) (validationZone : HostedZone)
  | existing (arn : String)
  deriving DecidableEq, Repr

/-- An HTTPS listener as declared with loadBalancer.addListener. -/
structure ApplicationListener where
  port : Nat
  protocol : ApplicationProtocol
  certificates : List CertificateRef
  sslPolicy : Option SslPolicy
  deriving DecidableEq, Repr

/-- The listener produced by loadBalancer.addRedirect: it answers on
sourcePort with sourceProtocol and redirects to targetPort with
targetProtocol. -/
structure RedirectListener where
  port : Nat
  protocol : ApplicationProtocol
  redirectToPort : Nat
  redirectToProtocol : ApplicationProtocol
  deriving DecidableEq, Repr

/-- A Route 53 record set as declared in the new-certificate branch; the
alias target is always the load balancer (LoadBalancerTarget). -/
structure RecordSet where
  zone : HostedZone
  recordName : String
  recordType : RecordType
  aliasTargetIsLoadBalancer : Bool
  deriving DecidableEq, Repr

/-- The VPC as declared by the constructor. -/
structure Vpc where
  maxAzs : Nat
  deriving DecidableEq, Repr

/-- The ECS cluster as declared by the constructor. -/
structure Cluster where
  clusterName : String
  deriving DecidableEq, Repr

/-- The application load balancer as declared by configureAlb. -/
structure ApplicationLoadBalancer where
  internetFacing : Bool
  loadBalancerName : String
  securityGroup : SecurityGroup
  deriving DecidableEq, Repr

/-- A container definition: the name and image given to addContainer plus
the port mappings added with addPortMappings, in order. -/
structure ContainerDefinition where
  containerName : String
  image : ContainerImage
  portMappings : List Nat
  deriving DecidableEq, Repr

/-- The container port of a container definition: the port of its first port
mapping (the CDK accessor containerDefinition.containerPort; the source
always adds exactly one mapping). -/
def ContainerDefinition.containerPort (c : ContainerDefinition) : Nat :=
  c.portMappings.headD 0

/-- The Fargate task definition: sizing plus the policy statements added to
the execution role and the task role, and the containers added to it. -/
structure FargateTaskDefinition where
  cpu : Nat
  memoryLimitMiB : Nat
  executionRolePolicy : List PolicyStatement
  taskRolePolicy : List PolicyStatement
  containers : List ContainerDefinition
  deriving DecidableEq, Repr

/-- Fargate platform version; the source pins VERSION1_4. -/
inductive FargatePlatformVersion
  | VERSION1_4
  deriving DecidableEq, Repr

/-- Tag propagation source; the source uses SERVICE. -/
inductive PropagatedTagSource
  | SERVICE
  deriving DecidableEq, Repr

/-- The Fargate service as declared by the constructor. -/
structure FargateService where
  clusterName : String
  serviceName : String
  securityGroup : SecurityGroup
  platformVersion : FargatePlatformVersion
  propagateTags : PropagatedTagSource
  deriving DecidableEq, Repr

/-- The autoscaling policy created by fargateService.autoScaleTaskCount. -/
structure ScalableTaskCount where
  minCapacity : Nat
  maxCapacity : Nat
  deriving DecidableEq, Repr

/-- The health check block passed to addTargets. The source sets enabled and
path only; it never sets a health-check protocol, so the protocol field of
the declared configuration is none. -/
structure HealthCheck where
  enabled : Bool
  path : Option String
  protocol : Option ApplicationProtocol
  deriving DecidableEq, Repr

/-- Effective health-check protocol: the platform (ELB) defaults the
health-check protocol of an application target group to plaintext HTTP when
it is not configured, which matches the repeated source comments that
healthchecks are performed via HTTP. -/
def HealthCheck.effectiveProtocol (hc : HealthCheck) : ApplicationProtocol :=
  hc.protocol.getD ApplicationProtocol.HTTP

/-- The load balancer target produced by fargateService.loadBalancerTarget. -/
structure LoadBalancerTargetRef where
  containerName : String
  containerPort : Nat
  deriving DecidableEq, Repr

/-- The target group declared by listener.https.addTargets. The protocol is
not given by the source; the platform derives it from the port (see
protocolForPort). -/
structure ApplicationTargetGroup where
  targetGroupName : String
  port : Nat
  protocol : ApplicationProtocol
  targets : List LoadBalancerTargetRef
  healthCheck : HealthCheck
  deriving DecidableEq, Repr

/-- Modelled platform rule: when addTargets receives a port but no protocol,
the CDK derives the target group protocol from the port (443 gives HTTPS,
any other port gives HTTP). -/
def protocolForPort (port : Nat) : ApplicationProtocol :=
  if port = 443 then ApplicationProtocol.HTTPS else ApplicationProtocol.HTTP

/-- The input property record of the DockerBackend construct
(DockerBackendProps in the source); every field except appName is optional. -/
structure DockerBackendProps where
  appName : String
  domainName : Option String := none
  hostedZone : Option HostedZone := none
  certificateArn : Option String := none
  cpu : Option Nat := none
  memory : Option Nat := none
  initialContainerImage : Option ContainerImage := none
  containerPort : Option Nat := none
  healthCheckPath : Option String := none
  deriving DecidableEq, Repr

/-- The DEFAULT_PROPS constant of the source (its fields are plain values,
not optionals). -/
structure DefaultProps where
  appName : String
  cpu : Nat
  memory : Nat
  containerPort : Nat
  healthCheckPath : String
  initialContainerImage : ContainerImage
  deriving DecidableEq, Repr

/-- DEFAULT_PROPS from the source. -/
def DEFAULT_PROPS : DefaultProps :=
  { appName := "DockerBackend"
    cpu := 512
    memory := 1024
    containerPort := 80
    healthCheckPath := "/"
    initialContainerImage := { registryRef := "nginx" } }

/-- JavaScript truthiness of an optional string: undefined and the empty
string are falsy. -/
def truthyStr : Option String → Bool
  | none => false
  | some s => s != ""

/-- JavaScript truthiness of an optional object (a hosted zone): undefined
is falsy, any object is truthy. -/
def truthyZone : Option HostedZone → Bool
  | none => false
  | some _ => true

/-- JavaScript evaluation of `x || d` for an optional number x: undefined
and 0 fall back to the default. -/
def jsOrNat : Option Nat → Nat → Nat
  | none, d => d
  | some n, d => if n = 0 then d else n

/-- JavaScript string interpolation of a possibly undefined string value, as
it appears in the thrown error message. -/
def jsShowStr : Option String → String
  | none => "undefined"
  | some s => s

/-- JavaScript string interpolation of a possibly undefined object value, as
it appears in the thrown error message. -/
def jsShowZone : Option HostedZone → String
  | none => "undefined"
  | some _ => "[object Object]"

/-- A resource declaration event, used to record the order in which the
constructor declares resources and which resources are declared before a
thrown configuration error. -/
inductive DeclaredResource
  | vpc
  | cluster
  | albSecurityGroup
  | loadBalancer
  | redirectListener
  | certificate
  | httpsListener
  | dnsRecord
  | taskDefinition
  | containerDefinition
  | fargateSecurityGroup
  | fargateService
  | scalingPolicy
  | targetGroup
  deriving DecidableEq, Repr

/-- The pair of listeners returned by configureAlbListener
(DockerBackendListener in the source). -/
structure DockerBackendListener where
  http : RedirectListener
  https : ApplicationListener
  deriving DecidableEq, Repr

/-- Result of configureAlbListener: either the listener pair together with
the DNS records and the declaration events of the call, or the thrown error
message together with the declaration events that happened before the
throw. -/
inductive ListenerResolution
  | ok (listeners : DockerBackendListener) (dnsRecords : List RecordSet)
      (declared : List DeclaredResource)
  | error (message : String) (declared : List DeclaredResource)
  deriving DecidableEq, Repr

/-- configureAlb from the source: declares the load balancer security group
with an anyIpv4 ingress on TCP 443 and the internet-facing load balancer
named after the application. -/
def configureAlb (appName : String) : ApplicationLoadBalancer :=
  { internetFacing := true
    loadBalancerName := appName
    securityGroup :=
      { allowAllOutbound := true
        ingressRules := [{ source := Peer.anyIpv4, tcpPort := 443 }] } }

/-- The string thrown by configureAlbListener when neither a truthy
domainName together with a hostedZone nor a truthy certificateArn is
supplied, as the source concatenates it. -/
def missingParamsMessage (domainName : Option String) (hostedZone : Option HostedZone)
    (certificateArn : Option String) : String :=
  "parameters domainName(provided value:" ++ jsShowStr domainName ++
    ") + hostedZone(provided value:" ++ jsShowZone hostedZone ++
    ") or certificateArn(provided value:" ++ jsShowStr certificateArn ++
    ") are missing."

/-- configureAlbListener from the source. The redirect listener is declared
unconditionally first; then, if domainName and hostedZone are truthy, a new
certificate with DNS validation, the HTTPS listener bound to it and an A
alias record are declared; otherwise, if certificateArn is truthy, the HTTPS
listener is bound to the imported certificate and no DNS record is created;
otherwise a string naming the three inputs and their provided values is
thrown. -/
def configureAlbListener (domainName : Option String) (hostedZone : Option HostedZone)
    (certificateArn : Option String) : ListenerResolution :=
  let httpListener : RedirectListener :=
    { port := 80
      protocol := ApplicationProtocol.HTTP
      redirectToPort := 443
      redirectToProtocol := ApplicationProtocol.HTTPS }
  if truthyStr domainName && truthyZone hostedZone then
    let dn := domainName.getD ("")
    let hz := hostedZone.getD { zoneName := "" }
    let certificate := CertificateRef.newCert dn hz
    let httpsListener : ApplicationListener :=
      { port := 443
        protocol := ApplicationProtocol.HTTPS
        certificates := [certificate]
        sslPolicy := some SslPolicy.RECOMMENDED }
    let record : RecordSet :=
      { zone := hz
        recordName := dn
        recordType := RecordType.A
        aliasTargetIsLoadBalancer := true }
    ListenerResolution.ok { http := httpListener, https := httpsListener } [record]
      [DeclaredResource.redirectListener, DeclaredResource.certificate,
       DeclaredResource.httpsListener, DeclaredResource.dnsRecord]
  else if truthyStr certificateArn then
    let httpsListener : ApplicationListener :=
      { port := 443
        protocol := ApplicationProtocol.HTTPS
        certificates := [CertificateRef.existing (certificateArn.getD (""))]
        sslPolicy := some SslPolicy.RECOMMENDED }
    ListenerResolution.ok { http := httpListener, https := httpsListener } []
      [DeclaredResource.redirectListener, DeclaredResource.httpsListener]
  else
    ListenerResolution.error
      (missingParamsMessage domainName hostedZone certificateArn)
      [DeclaredResource.redirectListener]

/-- The pair returned by configureEcsTaskDefinition (DockerBackendTask in
the source). -/
structure DockerBackendTask where
  taskDefinition : FargateTaskDefinition
  containerDefinition : ContainerDefinition
  deriving DecidableEq, Repr

/-- configureEcsTaskDefinition from the source: a Fargate task definition
sized with `props.cpu || 512` and `props.memory || 1024`, one execution-role
statement for ECR and CloudWatch Logs, and one container named after the
application running `props.initialContainerImage || nginx` with a single
port mapping for `props.containerPort || 80`. -/
def configureEcsTaskDefinition (props : DockerBackendProps) : DockerBackendTask :=
  let taskDefinition : FargateTaskDefinition :=
    { cpu := jsOrNat props.cpu DEFAULT_PROPS.cpu
      memoryLimitMiB := jsOrNat props.memory DEFAULT_PROPS.memory
      executionRolePolicy :=
        [{ effect := Effect.ALLOW
           resources := ["*"]
           actions := ["ecr:*", "logs:CreateLogStream", "logs:PutLogEvents"] }]
      taskRolePolicy := []
      containers := [] }
  let containerDefinition : ContainerDefinition :=
    { containerName := props.appName
      image := props.initialContainerImage.getD DEFAULT_PROPS.initialContainerImage
      portMappings := [jsOrNat props.containerPort DEFAULT_PROPS.containerPort] }
  { taskDefinition := { taskDefinition with containers := [containerDefinition] }
    containerDefinition := containerDefinition }

/-- configureSecurityGroupForFargateService from the source: an
allow-all-outbound security group with an ingress rule from the load
balancer security group on `ingressPort || 80`, plus, when ingressPort is
not exactly 80, a second ingress rule from the load balancer security group
on port 80 so the ALB can perform its plaintext HTTP healthcheck. -/
def configureSecurityGroupForFargateService (ingressPort : Nat) : SecurityGroup :=
  let firstRule : IngressRule :=
    { source := Peer.albSecurityGroup
      tcpPort := if ingressPort = 0 then DEFAULT_PROPS.containerPort else ingressPort }
  { allowAllOutbound := true
    ingressRules :=
      if ingressPort ≠ 80 then
        [firstRule, { source := Peer.albSecurityGroup, tcpPort := 80 }]
      else
        [firstRule] }

/-- The public fields of a successfully constructed DockerBackend, together
with the DNS records declared along the way. -/
structure DockerBackendStack where
  vpc : Vpc
  ecsCluster : Cluster
  loadBalancer : ApplicationLoadBalancer
  httpListener : RedirectListener
  httpsListener : ApplicationListener
  dnsRecords : List RecordSet
  taskDefinition : FargateTaskDefinition
  fargateService : FargateService
  scaling : ScalableTaskCount
  albTargetGroup : ApplicationTargetGroup
  albTarget : LoadBalancerTargetRef
  deriving DecidableEq, Repr

/-- Outcome of running the constructor: the declared stack, or the thrown
error message. -/
inductive ResolutionResult
  | ok (stack : DockerBackendStack)
  | error (message : String)
  deriving DecidableEq, Repr

/-- A full resolution: the ordered list of resource declaration events plus
the outcome. On a throw, declared lists exactly the resources declared
before the throw. -/
structure Resolution where
  declared : List DeclaredResource
  result : ResolutionResult
  deriving DecidableEq, Repr

/-- Everything the constructor declares after the listeners are resolved:
the task definition and container, the Fargate service with its security
group, the autoscaling policy, the load balancer target and the target
group. Factored out so the success branch of the constructor is a single
function of the props and the listener resolution. -/
def assembleStack (props : DockerBackendProps) (listeners : DockerBackendListener)
    (dnsRecords : List RecordSet) : DockerBackendStack :=
  let task := configureEcsTaskDefinition props
  let fargateService : FargateService :=
    { clusterName := props.appName
      serviceName := props.appName
      securityGroup :=
        configureSecurityGroupForFargateService
          (jsOrNat props.containerPort DEFAULT_PROPS.containerPort)
      platformVersion := FargatePlatformVersion.VERSION1_4
      propagateTags := PropagatedTagSource.SERVICE }
  let albTarget : LoadBalancerTargetRef :=
    { containerName := task.containerDefinition.containerName
      containerPort := task.containerDefinition.containerPort }
  let targetPort := jsOrNat props.containerPort DEFAULT_PROPS.containerPort
  let albTargetGroup : ApplicationTargetGroup :=
    { targetGroupName := props.appName
      port := targetPort
      protocol := protocolForPort targetPort
      targets := [albTarget]
      healthCheck := { enabled := true, path := props.healthCheckPath, protocol := none } }
  { vpc := { maxAzs := 3 }
    ecsCluster := { clusterName := props.appName }
    loadBalancer := configureAlb props.appName
    httpListener := listeners.http
    httpsListener := listeners.https
    dnsRecords := dnsRecords
    taskDefinition := task.taskDefinition
    fargateService := fargateService
    scaling := { minCapacity := 2, maxCapacity := 8 }
    albTargetGroup := albTargetGroup
    albTarget := albTarget }

/-- The DockerBackend constructor from the source, as a pure resolution
function. It declares the VPC, the cluster, the load balancer security
group and the load balancer, then resolves the listeners (which may throw),
and on success declares the task definition, container, Fargate security
group, service, scaling policy and target group. -/
def dockerBackend (props : DockerBackendProps) : Resolution :=
  let preListener : List DeclaredResource :=
    [DeclaredResource.vpc, DeclaredResource.cluster,
     DeclaredResource.albSecurityGroup, DeclaredResource.loadBalancer]
  match configureAlbListener props.domainName props.hostedZone props.certificateArn with
  | ListenerResolution.error msg listenerDeclared =>
      { declared := preListener ++ listenerDeclared
        result := ResolutionResult.error msg }
  | ListenerResolution.ok listeners dnsRecords listenerDeclared =>
      { declared := preListener ++ listenerDeclared ++
          [DeclaredResource.taskDefinition, DeclaredResource.containerDefinition,
           DeclaredResource.fargateSecurityGroup, DeclaredResource.fargateService,
           DeclaredResource.scalingPolicy, DeclaredResource.targetGroup]
        result := ResolutionResult.ok (assembleStack props listeners dnsRecords) }

/-- enableDynamoDBAccess from the source: appends one allow-all statement
for the dynamodb action space to the task role policy. -/
def enableDynamoDBAccess (s : DockerBackendStack) : DockerBackendStack :=
  { s with taskDefinition :=
      { s.taskDefinition with taskRolePolicy :=
          s.taskDefinition.taskRolePolicy ++
            [{ effect := Effect.ALLOW, resources := ["*"], actions := ["dynamodb:*"] }] } }

/-- enableS3Access from the source: appends one allow-all statement for the
s3 action space to the task role policy. -/
def enableS3Access (s : DockerBackendStack) : DockerBackendStack :=
  { s with taskDefinition :=
      { s.taskDefinition with taskRolePolicy :=
          s.taskDefinition.taskRolePolicy ++
            [{ effect := Effect.ALLOW, resources := ["*"], actions := ["s3:*"] }] } }

/-- enableSQSAccess from the source: appends one allow-all statement for the
sqs action space to the task role policy. -/
def enableSQSAccess (s : DockerBackendStack) : DockerBackendStack :=
  { s with taskDefinition :=
      { s.taskDefinition with taskRolePolicy :=
          s.taskDefinition.taskRolePolicy ++
            [{ effect := Effect.ALLOW, resources := ["*"], actions := ["sqs:*"] }] } }

/-- enableSNSAccess from the source: appends one allow-all statement for the
sns action space to the task role policy. -/
def enableSNSAccess (s : DockerBackendStack) : DockerBackendStack :=
  { s with taskDefinition :=
      { s.taskDefinition with taskRolePolicy :=
          s.taskDefinition.taskRolePolicy ++
            [{ effect := Effect.ALLOW, resources := ["*"], actions := ["sns:*"] }] } }

/-- Whether a resolution outcome is a thrown error. -/
def ResolutionResult.isError : ResolutionResult → Bool
  | ResolutionResult.error _ => true
  | ResolutionResult.ok _ => false

/-- The redirect listener the constructor always declares: it answers
plaintext HTTP on port 80 and redirects to HTTPS on port 443. -/
def theRedirectListener : RedirectListener :=
  { port := 80
    protocol := ApplicationProtocol.HTTP
    redirectToPort := 443
    redirectToProtocol := ApplicationProtocol.HTTPS }

/-- The listener pair produced on the new-certificate branch. -/
def newCertListeners (dn : String) (hz : HostedZone) : DockerBackendListener :=
  { http := theRedirectListener
    https :=
      { port := 443
        protocol := ApplicationProtocol.HTTPS
        certificates := [CertificateRef.newCert dn hz]
        sslPolicy := some SslPolicy.RECOMMENDED } }

/-- The listener pair produced on the existing-certificate branch. -/
def existingCertListeners (arn : String) : DockerBackendListener :=
  { http := theRedirectListener
    https :=
      { port := 443
        protocol := ApplicationProtocol.HTTPS
        certificates := [CertificateRef.existing arn]
        sslPolicy := some SslPolicy.RECOMMENDED } }

/-- The A alias record pointing the domain name at the load balancer. -/
def aliasRecord (dn : String) (hz : HostedZone) : RecordSet :=
  { zone := hz
    recordName := dn
    recordType := RecordType.A
    aliasTargetIsLoadBalancer := true }

/-- Concrete intent supplying domainName and hostedZone (new-certificate
path). -/
def domainZoneProps : DockerBackendProps :=
  { appName := "api-backend"
    domainName := some ("api.example.com")
    hostedZone := some { zoneName := "example.com" } }

/-- Concrete intent supplying only a certificate ARN (existing-certificate
path). -/
def arnOnlyProps : DockerBackendProps :=
  { appName := "arn-backend"
    certificateArn := some ("arn:example") }

/-- Concrete invalid intent: a domain name without a hosted zone and without
a certificate ARN. -/
def missingZoneProps : DockerBackendProps :=
  { appName := "bad-backend"
    domainName := some ("api.example.com") }

/-- Concrete invalid intent: neither domain configuration nor certificate
ARN. -/
def emptyConfigProps : DockerBackendProps :=
  { appName := "empty-backend" }

/-- The end-to-end scenario intent of the spec. -/
def e2eProps : DockerBackendProps :=
  { appName := "svc"
    certificateArn := some ("arn:example")
    cpu := some 1024
    memory := some 2048
    initialContainerImage := some { registryRef := "httpd" }
    containerPort := some 8080
    healthCheckPath := some ("/healthcheck.html") }

/-- Concrete intent omitting every optional field except the certificate
ARN (which is needed for the resolution to succeed at all). -/
def defaultsProps : DockerBackendProps :=
  { appName := "app"
    certificateArn := some ("arn:example") }

/-- Concrete intent supplying both the domainName+hostedZone pair and a
certificate ARN. -/
def bothPathsProps : DockerBackendProps :=
  { appName := "both-backend"
    domainName := some ("www.example.com")
    hostedZone := some { zoneName := "example.com" }
    certificateArn := some ("arn:unused") }

/-- Concrete intent with a non-80 container port, on the existing
certificate path. -/
def portProps : DockerBackendProps :=
  { appName := "port-backend"
    certificateArn := some ("arn:example")
    containerPort := some 3000 }

/-- The stack the constructor produces on the new-certificate branch. -/
def domainBranchStack (props : DockerBackendProps) : DockerBackendStack :=
  assembleStack props
    (newCertListeners (props.domainName.getD ("")) (props.hostedZone.getD { zoneName := "" }))
    [aliasRecord (props.domainName.getD ("")) (props.hostedZone.getD { zoneName := "" })]

/-- The stack the constructor produces on the existing-certificate branch. -/
def arnBranchStack (props : DockerBackendProps) : DockerBackendStack :=
  assembleStack props (existingCertListeners (props.certificateArn.getD (""))) []

/-- The full declaration trace of a successful new-certificate resolution. -/
def declaredDomainBranch : List DeclaredResource :=
  [DeclaredResource.vpc, DeclaredResource.cluster, DeclaredResource.albSecurityGroup,
   DeclaredResource.loadBalancer, DeclaredResource.redirectListener,
   DeclaredResource.certificate, DeclaredResource.httpsListener, DeclaredResource.dnsRecord,
   DeclaredResource.taskDefinition, DeclaredResource.containerDefinition,
   DeclaredResource.fargateSecurityGroup, DeclaredResource.fargateService,
   DeclaredResource.scalingPolicy, DeclaredResource.targetGroup]

/-- The full declaration trace of a successful existing-certificate
resolution. -/
def declaredArnBranch : List DeclaredResource :=
  [DeclaredResource.vpc, DeclaredResource.cluster, DeclaredResource.albSecurityGroup,
   DeclaredResource.loadBalancer, DeclaredResource.redirectListener,
   DeclaredResource.httpsListener,
   DeclaredResource.taskDefinition, DeclaredResource.containerDefinition,
   DeclaredResource.fargateSecurityGroup, DeclaredResource.fargateService,
   DeclaredResource.scalingPolicy, DeclaredResource.targetGroup]

/-- The declaration trace accumulated before the configuration error is
thrown. -/
def declaredBeforeThrow : List DeclaredResource :=
  [DeclaredResource.vpc, DeclaredResource.cluster, DeclaredResource.albSecurityGroup,
   DeclaredResource.loadBalancer, DeclaredResource.redirectListener]

/-- The JavaScript numeric defaulting never yields 0 when the default is
nonzero. -/
theorem jsOrNat_ne_zero (o : Option Nat) (d : Nat) (hd : d ≠ 0) : jsOrNat o d ≠ 0 := by
  cases o with
  | none => exact hd
  | some n =>
      by_cases hn : n = 0
      · rw [jsOrNat, if_pos hn]
        exact hd
      · rw [jsOrNat, if_neg hn]
        exact hn

/-- On the new-certificate branch, configureAlbListener declares the
redirect listener, the certificate, the HTTPS listener bound to it, and the
alias record, regardless of the certificateArn input. -/
theorem configureAlbListener_domain (dn : Option String) (hz : Option HostedZone)
    (arn : Option String) (h : (truthyStr dn && truthyZone hz) = true) :
    configureAlbListener dn hz arn =
      ListenerResolution.ok
        (newCertListeners (dn.getD ("")) (hz.getD { zoneName := "" }))
        [aliasRecord (dn.getD ("")) (hz.getD { zoneName := "" })]
        [DeclaredResource.redirectListener, DeclaredResource.certificate,
         DeclaredResource.httpsListener, DeclaredResource.dnsRecord] := by
  simp only [configureAlbListener, h, if_true]
  rfl

/-- On the existing-certificate branch, configureAlbListener declares the
redirect listener and the HTTPS listener bound to the imported certificate,
and no DNS record. -/
theorem configureAlbListener_arn (dn : Option String) (hz : Option HostedZone)
    (arn : Option String) (h : (truthyStr dn && truthyZone hz) = false)
    (ha : truthyStr arn = true) :
    configureAlbListener dn hz arn =
      ListenerResolution.ok (existingCertListeners (arn.getD ("")))
        []
        [DeclaredResource.redirectListener, DeclaredResource.httpsListener] := by
  simp only [configureAlbListener, h, ha, if_true, Bool.false_eq_true, if_false]
  rfl

/-- When neither branch condition holds, configureAlbListener throws after
declaring only the redirect listener. -/
theorem configureAlbListener_missing (dn : Option String) (hz : Option HostedZone)
    (arn : Option String) (h : (truthyStr dn && truthyZone hz) = false)
    (ha : truthyStr arn = false) :
    configureAlbListener dn hz arn =
      ListenerResolution.error (missingParamsMessage dn hz arn)
        [DeclaredResource.redirectListener] := by
  simp only [configureAlbListener, h, ha, Bool.false_eq_true, if_false]

/-- Every successful listener resolution yields the redirect listener on
port 80 and an HTTPS listener on port 443 with the recommended SSL policy. -/
theorem configureAlbListener_ok_shape (dn : Option String) (hz : Option HostedZone)
    (arn : Option String) (L : DockerBackendListener) (recs : List RecordSet)
    (dec : List DeclaredResource)
    (h : configureAlbListener dn hz arn = ListenerResolution.ok L recs dec) :
    L.http = theRedirectListener ∧ L.https.port = 443 ∧
    L.https.protocol = ApplicationProtocol.HTTPS ∧
    L.https.sslPolicy = some SslPolicy.RECOMMENDED := by
  by_cases h1 : (truthyStr dn && truthyZone hz) = true
  · rw [configureAlbListener_domain dn hz arn h1] at h
    cases h
    exact ⟨rfl, rfl, rfl, rfl⟩
  · rw [Bool.not_eq_true] at h1
    by_cases h2 : truthyStr arn = true
    · rw [configureAlbListener_arn dn hz arn h1 h2] at h
      cases h
      exact ⟨rfl, rfl, rfl, rfl⟩
    · rw [Bool.not_eq_true] at h2
      rw [configureAlbListener_missing dn hz arn h1 h2] at h
      cases h

/-- Inversion for a successful construction: the listener resolution
succeeded and the stack is exactly the one assembled from its output. -/
theorem dockerBackend_ok_inv (props : DockerBackendProps) (s : DockerBackendStack)
    (h : (dockerBackend props).result = ResolutionResult.ok s) :
    ∃ L recs dec,
      configureAlbListener props.domainName props.hostedZone props.certificateArn =
        ListenerResolution.ok L recs dec ∧ s = assembleStack props L recs := by
  unfold dockerBackend at h
  cases hL : configureAlbListener props.domainName props.hostedZone props.certificateArn with
  | error msg d =>
      rw [hL] at h
      simp at h
  | ok L recs dec =>
      rw [hL] at h
      simp only [ResolutionResult.ok.injEq] at h
      exact ⟨L, recs, dec, rfl, h.symm⟩

/-- When domainName and hostedZone are truthy the whole construction takes
the new-certificate branch, whatever the certificateArn input. -/
theorem dockerBackend_domain_branch (props : DockerBackendProps)
    (h : (truthyStr props.domainName && truthyZone props.hostedZone) = true) :
    dockerBackend props =
      { declared := declaredDomainBranch
        result := ResolutionResult.ok (domainBranchStack props) } := by
  unfold dockerBackend
  rw [configureAlbListener_domain props.domainName props.hostedZone props.certificateArn h]
  rfl

/-- When the domain pair is not truthy but certificateArn is, the whole
construction takes the existing-certificate branch. -/
theorem dockerBackend_arn_branch (props : DockerBackendProps)
    (h : (truthyStr props.domainName && truthyZone props.hostedZone) = false)
    (ha : truthyStr props.certificateArn = true) :
    dockerBackend props =
      { declared := declaredArnBranch
        result := ResolutionResult.ok (arnBranchStack props) } := by
  unfold dockerBackend
  rw [configureAlbListener_arn props.domainName props.hostedZone props.certificateArn h ha]
  rfl

/-- When neither certificate input is truthy the construction throws, with
exactly the network, cluster, front-door security group, front door and
redirect listener already declared. -/
theorem dockerBackend_missing_branch (props : DockerBackendProps)
    (h : (truthyStr props.domainName && truthyZone props.hostedZone) = false)
    (ha : truthyStr props.certificateArn = false) :
    dockerBackend props =
      { declared := declaredBeforeThrow
        result := ResolutionResult.error
          (missingParamsMessage props.domainName props.hostedZone props.certificateArn) } := by
  unfold dockerBackend
  rw [configureAlbListener_missing props.domainName props.hostedZone props.certificateArn h ha]
  rfl

/-- Claim C1, amended: certificate/listener resolution selects exactly one
certificate path per intent. If both domainName and hostedZone are truthy, a
new certificate for domainName with DNS validation against the zone is
declared, the secure listener is bound to it, and a DNS alias A record named
domainName pointing at the front door is created. Otherwise, if
certificateArn is truthy, the secure listener is bound to the existing
certificate reference and zero DNS records are created. Any violated
combination fails with a thrown configuration error before any certificate,
secure listener or DNS record is declared, but not before any resource at
all: the network, cluster, front-door security group, front door and
redirect listener are already declared when the failure happens. -/
theorem certificate_path_resolution (props : DockerBackendProps) :
    ((truthyStr props.domainName && truthyZone props.hostedZone) = true →
      (dockerBackend props).result = ResolutionResult.ok (domainBranchStack props) ∧
      (domainBranchStack props).httpsListener.certificates =
        [CertificateRef.newCert (props.domainName.getD (""))
          (props.hostedZone.getD { zoneName := "" })] ∧
      (domainBranchStack props).dnsRecords =
        [aliasRecord (props.domainName.getD ("")) (props.hostedZone.getD { zoneName := "" })]) ∧
    ((truthyStr props.domainName && truthyZone props.hostedZone) = false →
      truthyStr props.certificateArn = true →
      (dockerBackend props).result = ResolutionResult.ok (arnBranchStack props) ∧
      (arnBranchStack props).httpsListener.certificates =
        [CertificateRef.existing (props.certificateArn.getD (""))] ∧
      (arnBranchStack props).dnsRecords = []) ∧
    ((truthyStr props.domainName && truthyZone props.hostedZone) = false →
      truthyStr props.certificateArn = false →
      (dockerBackend props).result.isError = true ∧
      (dockerBackend props).declared = declaredBeforeThrow ∧
      DeclaredResource.certificate ∉ (dockerBackend props).declared ∧
      DeclaredResource.httpsListener ∉ (dockerBackend props).declared ∧
      DeclaredResource.dnsRecord ∉ (dockerBackend props).declared) := by
  refine ⟨fun h => ?_, fun h ha => ?_, fun h ha => ?_⟩
  · rw [dockerBackend_domain_branch props h]
    exact ⟨rfl, rfl, rfl⟩
  · rw [dockerBackend_arn_branch props h ha]
    exact ⟨rfl, rfl, rfl⟩
  · rw [dockerBackend_missing_branch props h ha]
    refine ⟨rfl, rfl, ?_, ?_, ?_⟩
    · show DeclaredResource.certificate ∉ declaredBeforeThrow
      decide
    · show DeclaredResource.httpsListener ∉ declaredBeforeThrow
      decide
    · show DeclaredResource.dnsRecord ∉ declaredBeforeThrow
      decide

/-- Claim C1 witness: the amended theorem evaluated on a concrete intent
supplying domainName and hostedZone. -/
theorem certificate_path_resolution_witness :
    (truthyStr domainZoneProps.domainName && truthyZone domainZoneProps.hostedZone) = true ∧
    ((dockerBackend domainZoneProps).result =
       ResolutionResult.ok (domainBranchStack domainZoneProps) ∧
     (domainBranchStack domainZoneProps).httpsListener.certificates =
       [CertificateRef.newCert (domainZoneProps.domainName.getD (""))
         (domainZoneProps.hostedZone.getD { zoneName := "" })] ∧
     (domainBranchStack domainZoneProps).dnsRecords =
       [aliasRecord (domainZoneProps.domainName.getD (""))
         (domainZoneProps.hostedZone.getD { zoneName := "" })]) :=
  ⟨by decide, (certificate_path_resolution domainZoneProps).1 (by decide)⟩

/-- Claim C1 counterexample: for the concrete intent supplying a domainName
but no hostedZone and no certificateArn, resolution does fail, but the
declaration trace is not empty (the network is already declared), so the
part of the claim stating that any violated combination fails before any
resource is declared is false on the code. -/
theorem certificate_path_claim_counterexample :
    (dockerBackend missingZoneProps).result.isError = true ∧
    (dockerBackend missingZoneProps).declared ≠ [] ∧
    DeclaredResource.vpc ∈ (dockerBackend missingZoneProps).declared := by
  decide

/-- Claim C2, amended: for every intent supplying neither a truthy
domainName+hostedZone pair nor a truthy certificateArn, resolution fails
with the thrown configuration error naming the three inputs; however the
failure happens after the network, cluster, front-door security group,
front door and redirect listener are declared (and before the task
definition, service or target group is declared), so the caller does not
observe an empty declaration set. -/
theorem missing_config_failure (props : DockerBackendProps)
    (h : (truthyStr props.domainName && truthyZone props.hostedZone) = false)
    (ha : truthyStr props.certificateArn = false) :
    (dockerBackend props).result =
      ResolutionResult.error
        (missingParamsMessage props.domainName props.hostedZone props.certificateArn) ∧
    (dockerBackend props).declared = declaredBeforeThrow ∧
    DeclaredResource.vpc ∈ (dockerBackend props).declared ∧
    DeclaredResource.cluster ∈ (dockerBackend props).declared ∧
    DeclaredResource.taskDefinition ∉ (dockerBackend props).declared ∧
    DeclaredResource.fargateService ∉ (dockerBackend props).declared ∧
    DeclaredResource.targetGroup ∉ (dockerBackend props).declared := by
  rw [dockerBackend_missing_branch props h ha]
  refine ⟨rfl, rfl, ?_, ?_, ?_, ?_, ?_⟩
  · show DeclaredResource.vpc ∈ declaredBeforeThrow
    decide
  · show DeclaredResource.cluster ∈ declaredBeforeThrow
    decide
  · show DeclaredResource.taskDefinition ∉ declaredBeforeThrow
    decide
  · show DeclaredResource.fargateService ∉ declaredBeforeThrow
    decide
  · show DeclaredResource.targetGroup ∉ declaredBeforeThrow
    decide

/-- Claim C2 witness: the amended theorem evaluated on the concrete intent
supplying neither certificate input. -/
theorem missing_config_failure_witness :
    (truthyStr emptyConfigProps.domainName && truthyZone emptyConfigProps.hostedZone) = false ∧
    truthyStr emptyConfigProps.certificateArn = false ∧
    ((dockerBackend emptyConfigProps).result =
       ResolutionResult.error
         (missingParamsMessage emptyConfigProps.domainName emptyConfigProps.hostedZone
           emptyConfigProps.certificateArn) ∧
     (dockerBackend emptyConfigProps).declared = declaredBeforeThrow ∧
     DeclaredResource.vpc ∈ (dockerBackend emptyConfigProps).declared ∧
     DeclaredResource.cluster ∈ (dockerBackend emptyConfigProps).declared ∧
     DeclaredResource.taskDefinition ∉ (dockerBackend emptyConfigProps).declared ∧
     DeclaredResource.fargateService ∉ (dockerBackend emptyConfigProps).declared ∧
     DeclaredResource.targetGroup ∉ (dockerBackend emptyConfigProps).declared) :=
  ⟨by decide, by decide, missing_config_failure emptyConfigProps (by decide) (by decide)⟩

/-- Claim C2 counterexample: for the concrete intent with neither
certificate input, resolution fails, but the network (VPC) and the cluster
are declared before the failure, so the claim that the failure happens
before the network and cluster are declared and that the caller observes
nothing declared is false on the code. -/
theorem missing_config_claim_counterexample :
    (dockerBackend emptyConfigProps).result.isError = true ∧
    DeclaredResource.vpc ∈ (dockerBackend emptyConfigProps).declared ∧
    DeclaredResource.cluster ∈ (dockerBackend emptyConfigProps).declared := by
  decide

/-- Claim C3: for every successfully resolved stack, if the effective
exposed container port (after the JavaScript defaulting of containerPort to
80) differs from 80 then the service security group contains exactly two
ingress allowances, both sourced from the front-door security group, one for
the exposed port and one for port 80; if the effective exposed port equals
80 the security group contains exactly one ingress allowance, for port 80
from the front door. -/
theorem service_ingress_rules (props : DockerBackendProps) (s : DockerBackendStack)
    (h : (dockerBackend props).result = ResolutionResult.ok s) :
    (jsOrNat props.containerPort DEFAULT_PROPS.containerPort ≠ 80 →
      s.fargateService.securityGroup.ingressRules =
        [{ source := Peer.albSecurityGroup,
           tcpPort := jsOrNat props.containerPort DEFAULT_PROPS.containerPort },
         { source := Peer.albSecurityGroup, tcpPort := 80 }]) ∧
    (jsOrNat props.containerPort DEFAULT_PROPS.containerPort = 80 →
      s.fargateService.securityGroup.ingressRules =
        [{ source := Peer.albSecurityGroup, tcpPort := 80 }]) := by
  obtain ⟨L, recs, dec, hL, hs⟩ := dockerBackend_ok_inv props s h
  subst hs
  have hp0 : jsOrNat props.containerPort DEFAULT_PROPS.containerPort ≠ 0 :=
    jsOrNat_ne_zero props.containerPort DEFAULT_PROPS.containerPort (by decide)
  constructor
  · intro hne
    show (configureSecurityGroupForFargateService
        (jsOrNat props.containerPort DEFAULT_PROPS.containerPort)).ingressRules = _
    simp [configureSecurityGroupForFargateService, hne, hp0]
  · intro heq
    show (configureSecurityGroupForFargateService
        (jsOrNat props.containerPort DEFAULT_PROPS.containerPort)).ingressRules = _
    rw [heq]
    simp [configureSecurityGroupForFargateService]

/-- Claim C3 witness: the theorem evaluated on a concrete intent with
container port 3000. -/
theorem service_ingress_rules_witness :
    (dockerBackend portProps).result = ResolutionResult.ok (arnBranchStack portProps) ∧
    jsOrNat portProps.containerPort DEFAULT_PROPS.containerPort ≠ 80 ∧
    (arnBranchStack portProps).fargateService.securityGroup.ingressRules =
      [{ source := Peer.albSecurityGroup, tcpPort := 3000 },
       { source := Peer.albSecurityGroup, tcpPort := 80 }] :=
  ⟨by decide, by decide,
   (service_ingress_rules portProps (arnBranchStack portProps) (by decide)).1 (by decide)⟩

/-- Claim C4: for every successfully resolved stack, the secure listener has
port 443 with the HTTPS protocol, and the redirect listener answers on port
80 with plaintext HTTP and redirects to port 443 / HTTPS. -/
theorem listener_port_protocol_invariant (props : DockerBackendProps)
    (s : DockerBackendStack)
    (h : (dockerBackend props).result = ResolutionResult.ok s) :
    s.httpsListener.port = 443 ∧
    s.httpsListener.protocol = ApplicationProtocol.HTTPS ∧
    s.httpListener.port = 80 ∧
    s.httpListener.protocol = ApplicationProtocol.HTTP ∧
    s.httpListener.redirectToPort = 443 ∧
    s.httpListener.redirectToProtocol = ApplicationProtocol.HTTPS := by
  obtain ⟨L, recs, dec, hL, hs⟩ := dockerBackend_ok_inv props s h
  obtain ⟨hhttp, hport, hproto, hssl⟩ := configureAlbListener_ok_shape _ _ _ _ _ _ hL
  subst hs
  have h1 : (assembleStack props L recs).httpsListener = L.https := rfl
  have h2 : (assembleStack props L recs).httpListener = L.http := rfl
  rw [h1, h2, hhttp]
  exact ⟨hport, hproto, rfl, rfl, rfl, rfl⟩

/-- Claim C4 witness: the theorem evaluated on the concrete
certificate-ARN-only intent. -/
theorem listener_port_protocol_invariant_witness :
    (dockerBackend arnOnlyProps).result = ResolutionResult.ok (arnBranchStack arnOnlyProps) ∧
    ((arnBranchStack arnOnlyProps).httpsListener.port = 443 ∧
     (arnBranchStack arnOnlyProps).httpsListener.protocol = ApplicationProtocol.HTTPS ∧
     (arnBranchStack arnOnlyProps).httpListener.port = 80 ∧
     (arnBranchStack arnOnlyProps).httpListener.protocol = ApplicationProtocol.HTTP ∧
     (arnBranchStack arnOnlyProps).httpListener.redirectToPort = 443 ∧
     (arnBranchStack arnOnlyProps).httpListener.redirectToProtocol =
       ApplicationProtocol.HTTPS) :=
  ⟨by decide,
   listener_port_protocol_invariant arnOnlyProps (arnBranchStack arnOnlyProps) (by decide)⟩

/-- Claim C5: the end-to-end scenario. The concrete intent with application
name svc, certificate reference arn:example, cpu 1024, memory 2048, image
httpd, exposed port 8080 and health-check path /healthcheck.html resolves to
a task descriptor with cpu 1024, memory 2048, the httpd image and a port
mapping for 8080; a target registration with health-check path
/healthcheck.html, port 8080 and the plaintext HTTP health-check protocol;
and a service security group allowing ports 8080 and 80 from the front
door. -/
theorem end_to_end_scenario :
    (dockerBackend e2eProps).result = ResolutionResult.ok (arnBranchStack e2eProps) ∧
    (arnBranchStack e2eProps).taskDefinition.cpu = 1024 ∧
    (arnBranchStack e2eProps).taskDefinition.memoryLimitMiB = 2048 ∧
    (arnBranchStack e2eProps).taskDefinition.containers =
      [{ containerName := "svc"
         image := { registryRef := "httpd" }
         portMappings := [8080] }] ∧
    (arnBranchStack e2eProps).albTargetGroup.healthCheck.path = some ("/healthcheck.html") ∧
    (arnBranchStack e2eProps).albTargetGroup.port = 8080 ∧
    (arnBranchStack e2eProps).albTargetGroup.healthCheck.enabled = true ∧
    (arnBranchStack e2eProps).albTargetGroup.healthCheck.effectiveProtocol =
      ApplicationProtocol.HTTP ∧
    (arnBranchStack e2eProps).fargateService.securityGroup.ingressRules =
      [{ source := Peer.albSecurityGroup, tcpPort := 8080 },
       { source := Peer.albSecurityGroup, tcpPort := 80 }] := by
  decide

/-- Claim C6: the code at the failing input. For the concrete intent that
omits every optional field (supplying only the certificate ARN), the
resolver applies the documented defaults for cpu (512), memory (1024), the
container image (nginx) and the container port (80), but it does not apply
the documented default for healthCheckPath: the declared target group
health-check path is absent (none), not the slash path that DEFAULT_PROPS
and the property documentation promise. -/
theorem healthCheckPath_not_defaulted :
    (dockerBackend defaultsProps).result = ResolutionResult.ok (arnBranchStack defaultsProps) ∧
    (arnBranchStack defaultsProps).taskDefinition.cpu = 512 ∧
    (arnBranchStack defaultsProps).taskDefinition.memoryLimitMiB = 1024 ∧
    (arnBranchStack defaultsProps).taskDefinition.containers =
      [{ containerName := "app"
         image := { registryRef := "nginx" }
         portMappings := [80] }] ∧
    (arnBranchStack defaultsProps).albTargetGroup.port = 80 ∧
    (arnBranchStack defaultsProps).albTargetGroup.healthCheck.path = none ∧
    ¬ (arnBranchStack defaultsProps).albTargetGroup.healthCheck.path =
        some (DEFAULT_PROPS.healthCheckPath) := by
  decide

/-- Claim C7: for every successfully resolved stack, the autoscaling policy
bounds the replica count with minimum 2 and maximum 8, and the minimum is at
most the maximum. -/
theorem scaling_bounds_invariant (props : DockerBackendProps) (s : DockerBackendStack)
    (h : (dockerBackend props).result = ResolutionResult.ok s) :
    s.scaling.minCapacity = 2 ∧ s.scaling.maxCapacity = 8 ∧
    s.scaling.minCapacity ≤ s.scaling.maxCapacity := by
  obtain ⟨L, recs, dec, hL, hs⟩ := dockerBackend_ok_inv props s h
  subst hs
  refine ⟨rfl, rfl, ?_⟩
  show (2 : Nat) ≤ 8
  decide

/-- Claim C7 witness: the theorem evaluated on the concrete intent with
container port 3000. -/
theorem scaling_bounds_invariant_witness :
    (dockerBackend portProps).result = ResolutionResult.ok (arnBranchStack portProps) ∧
    ((arnBranchStack portProps).scaling.minCapacity = 2 ∧
     (arnBranchStack portProps).scaling.maxCapacity = 8 ∧
     (arnBranchStack portProps).scaling.minCapacity ≤
       (arnBranchStack portProps).scaling.maxCapacity) :=
  ⟨by decide, scaling_bounds_invariant portProps (arnBranchStack portProps) (by decide)⟩

/-- Claim C8: resolution is a pure function of its input. Resolving equal
intents yields equal resolutions, and in particular equal stacks with the
same ingress-rule sets and the same permission statement sets. The embedding
is deterministic because the source constructor reads nothing but its
arguments: it consults no ambient mutable state, clock or randomness. -/
theorem resolution_idempotent (p q : DockerBackendProps) (s t : DockerBackendStack)
    (h : p = q)
    (hs : (dockerBackend p).result = ResolutionResult.ok s)
    (ht : (dockerBackend q).result = ResolutionResult.ok t) :
    dockerBackend p = dockerBackend q ∧ s = t ∧
    s.fargateService.securityGroup.ingressRules =
      t.fargateService.securityGroup.ingressRules ∧
    s.loadBalancer.securityGroup.ingressRules =
      t.loadBalancer.securityGroup.ingressRules ∧
    s.taskDefinition.executionRolePolicy = t.taskDefinition.executionRolePolicy ∧
    s.taskDefinition.taskRolePolicy = t.taskDefinition.taskRolePolicy := by
  subst h
  rw [hs] at ht
  injection ht with hst
  subst hst
  exact ⟨rfl, rfl, rfl, rfl, rfl, rfl⟩

/-- Claim C8 witness: the theorem evaluated on two copies of the concrete
domainName+hostedZone intent. -/
theorem resolution_idempotent_witness :
    domainZoneProps = domainZoneProps ∧
    (dockerBackend domainZoneProps).result =
      ResolutionResult.ok (domainBranchStack domainZoneProps) ∧
    (dockerBackend domainZoneProps = dockerBackend domainZoneProps ∧
     domainBranchStack domainZoneProps = domainBranchStack domainZoneProps ∧
     (domainBranchStack domainZoneProps).fargateService.securityGroup.ingressRules =
       (domainBranchStack domainZoneProps).fargateService.securityGroup.ingressRules ∧
     (domainBranchStack domainZoneProps).loadBalancer.securityGroup.ingressRules =
       (domainBranchStack domainZoneProps).loadBalancer.securityGroup.ingressRules ∧
     (domainBranchStack domainZoneProps).taskDefinition.executionRolePolicy =
       (domainBranchStack domainZoneProps).taskDefinition.executionRolePolicy ∧
     (domainBranchStack domainZoneProps).taskDefinition.taskRolePolicy =
       (domainBranchStack domainZoneProps).taskDefinition.taskRolePolicy) :=
  ⟨rfl, by decide,
   resolution_idempotent domainZoneProps domainZoneProps
     (domainBranchStack domainZoneProps) (domainBranchStack domainZoneProps)
     rfl (by decide) (by decide)⟩

/-- Claim C9: by default no downstream-service access grant is enabled: the
task role policy of every successfully resolved stack is empty, so it
carries no dynamodb, s3, sqs or sns statement. For each grant that is
enabled, exactly one allow statement with resources * and the corresponding
service:* action is appended to the task role policy, independently of the
other grants (the append equation holds for an arbitrary stack t, whatever
grants were already applied to it). -/
theorem access_grants_default_and_append (props : DockerBackendProps)
    (s t : DockerBackendStack)
    (h : (dockerBackend props).result = ResolutionResult.ok s) :
    s.taskDefinition.taskRolePolicy = [] ∧
    (enableDynamoDBAccess t).taskDefinition.taskRolePolicy =
      t.taskDefinition.taskRolePolicy ++
        [{ effect := Effect.ALLOW, resources := ["*"], actions := ["dynamodb:*"] }] ∧
    (enableS3Access t).taskDefinition.taskRolePolicy =
      t.taskDefinition.taskRolePolicy ++
        [{ effect := Effect.ALLOW, resources := ["*"], actions := ["s3:*"] }] ∧
    (enableSQSAccess t).taskDefinition.taskRolePolicy =
      t.taskDefinition.taskRolePolicy ++
        [{ effect := Effect.ALLOW, resources := ["*"], actions := ["sqs:*"] }] ∧
    (enableSNSAccess t).taskDefinition.taskRolePolicy =
      t.taskDefinition.taskRolePolicy ++
        [{ effect := Effect.ALLOW, resources := ["*"], actions := ["sns:*"] }] := by
  obtain ⟨L, recs, dec, hL, hs⟩ := dockerBackend_ok_inv props s h
  subst hs
  exact ⟨rfl, rfl, rfl, rfl, rfl⟩

/-- Claim C9 witness: the theorem evaluated on the concrete defaults intent,
with the appended-statement equations instantiated at its resolved stack. -/
theorem access_grants_witness :
    (dockerBackend defaultsProps).result = ResolutionResult.ok (arnBranchStack defaultsProps) ∧
    ((arnBranchStack defaultsProps).taskDefinition.taskRolePolicy = [] ∧
     (enableDynamoDBAccess (arnBranchStack defaultsProps)).taskDefinition.taskRolePolicy =
       (arnBranchStack defaultsProps).taskDefinition.taskRolePolicy ++
         [{ effect := Effect.ALLOW, resources := ["*"], actions := ["dynamodb:*"] }] ∧
     (enableS3Access (arnBranchStack defaultsProps)).taskDefinition.taskRolePolicy =
       (arnBranchStack defaultsProps).taskDefinition.taskRolePolicy ++
         [{ effect := Effect.ALLOW, resources := ["*"], actions := ["s3:*"] }] ∧
     (enableSQSAccess (arnBranchStack defaultsProps)).taskDefinition.taskRolePolicy =
       (arnBranchStack defaultsProps).taskDefinition.taskRolePolicy ++
         [{ effect := Effect.ALLOW, resources := ["*"], actions := ["sqs:*"] }] ∧
     (enableSNSAccess (arnBranchStack defaultsProps)).taskDefinition.taskRolePolicy =
       (arnBranchStack defaultsProps).taskDefinition.taskRolePolicy ++
         [{ effect := Effect.ALLOW, resources := ["*"], actions := ["sns:*"] }]) :=
  ⟨by decide,
   access_grants_default_and_append defaultsProps (arnBranchStack defaultsProps)
     (arnBranchStack defaultsProps) (by decide)⟩

/-- Claim C10: for every intent supplying both a truthy domainName together
with a hostedZone and a truthy certificateArn, resolution does not fail: the
new-certificate path takes precedence (a certificate for domainName with DNS
validation is declared and bound to the secure listener, and the DNS alias
record is created), and the supplied certificateArn is silently ignored (the
resolution is identical to the one for the same intent with the
certificateArn removed). -/
theorem both_paths_new_cert_precedence (props : DockerBackendProps)
    (h : (truthyStr props.domainName && truthyZone props.hostedZone) = true)
    (_ha : truthyStr props.certificateArn = true) :
    (dockerBackend props).result = ResolutionResult.ok (domainBranchStack props) ∧
    (domainBranchStack props).httpsListener.certificates =
      [CertificateRef.newCert (props.domainName.getD (""))
        (props.hostedZone.getD { zoneName := "" })] ∧
    (domainBranchStack props).dnsRecords =
      [aliasRecord (props.domainName.getD ("")) (props.hostedZone.getD { zoneName := "" })] ∧
    dockerBackend props = dockerBackend { props with certificateArn := none } := by
  rw [dockerBackend_domain_branch props h]
  refine ⟨rfl, rfl, rfl, ?_⟩
  rw [dockerBackend_domain_branch { props with certificateArn := none } h]
  rfl

/-- Claim C10 witness: the theorem evaluated on the concrete intent
supplying both the domain pair and a certificate ARN. -/
theorem both_paths_new_cert_precedence_witness :
    (truthyStr bothPathsProps.domainName && truthyZone bothPathsProps.hostedZone) = true ∧
    truthyStr bothPathsProps.certificateArn = true ∧
    ((dockerBackend bothPathsProps).result =
       ResolutionResult.ok (domainBranchStack bothPathsProps) ∧
     (domainBranchStack bothPathsProps).httpsListener.certificates =
       [CertificateRef.newCert (bothPathsProps.domainName.getD (""))
         (bothPathsProps.hostedZone.getD { zoneName := "" })] ∧
     (domainBranchStack bothPathsProps).dnsRecords =
       [aliasRecord (bothPathsProps.domainName.getD (""))
         (bothPathsProps.hostedZone.getD { zoneName := "" })] ∧
     dockerBackend bothPathsProps = dockerBackend { bothPathsProps with certificateArn := none }) :=
  ⟨by decide, by decide, both_paths_new_cert_precedence bothPathsProps (by decide) (by decide)⟩

end CnaCdk
